import Mathlib

/-!
Verification of the POS backend (`src/main.py`) against its design spec.

The development shallowly embeds the two business operations of the
repository — product lookup (`search_product`) and purchase checkout
(`purchase`) — together with the connection provider
(`get_db_connection`) and the request contracts (pydantic models).

Numeric note: the source computes the tax-exclusive unit price as
`math.floor(item.prd_price / 1.1)` in Python, i.e. it floors the
IEEE-754 binary64 (double) result of dividing by the double literal
`1.1`, which is NOT the rational 11/10 but 4953959590107546 / 2^52.
We model that arithmetic exactly over the naturals: `floatRound`
performs round-to-nearest, ties-to-even onto the binary64 grid, and
`pyFloorDiv11 p` is the value of `math.floor(float(p) / 1.1)`.
-/

namespace POS

/-- Binary length of a natural number (`0 ↦ 0`, `n ↦ ⌊log₂ n⌋ + 1` for `n ≥ 1`),
computed with explicit fuel so that it reduces by kernel evaluation. -/
def bitLenAux : ℕ → ℕ → ℕ
  | 0, _ => 0
  | fuel + 1, n => if n = 0 then 0 else bitLenAux fuel (n / 2) + 1

/-- Binary length of a natural number: `bitLen n = ⌊log₂ n⌋ + 1` for `n ≥ 1`. -/
def bitLen (n : ℕ) : ℕ := bitLenAux n n

/-- Round the rational `A / B` (with `B ≠ 0`) to the nearest integer,
ties going to the even integer — the rounding used by IEEE-754
round-to-nearest, ties-to-even once scaled onto the grid. -/
def rne (A B : ℕ) : ℕ :=
  let t := A / B
  let r := A % B
  if 2 * r < B then t
  else if B < 2 * r then t + 1
  else if t % 2 = 0 then t else t + 1

/-- The integer mantissa of the double literal `1.1`:
the IEEE-754 binary64 value closest to 1.1 is `mant11 / 2^52 =
1.100000000000000088817841970012523233890533447265625`. -/
def mant11 : ℕ := 4953959590107546

/-- Round the positive rational `A / B` (`A / B ≥ 1/2` or `A = 0`) to the
nearest IEEE-754 binary64 value, ties to even, returned as `(m, s)` with
value `m · 2^s`. Exponent range of binary64 is not modelled (prices that
overflow a double raise in Python before reaching this arithmetic). -/
def floatRound (A B : ℕ) : ℕ × ℤ :=
  let e : ℤ := if B ≤ A then (bitLen (A / B) : ℤ) - 1 else -1
  let s : ℤ := e - 52
  let m : ℕ := if 0 ≤ s then rne A (B * 2 ^ s.toNat) else rne (A * 2 ^ (-s).toNat) B
  (m, s)

/-- Floor of `m · 2^s` for a natural mantissa `m` and integer exponent `s`. -/
def floorPow2 (m : ℕ) (s : ℤ) : ℕ :=
  if 0 ≤ s then m * 2 ^ s.toNat else m / 2 ^ (-s).toNat

/-- Model of Python `math.floor(float(p) / 1.1)` for a natural `p`:
`float(p)` rounds `p` to binary64, the division by the double `1.1`
is correctly rounded per IEEE-754, and `math.floor` truncates. -/
def pyFloorDiv11 (p : ℕ) : ℕ :=
  let f := floatRound p 1
  let s1 : ℤ := f.2 + 52
  let q :=
    if 0 ≤ s1 then floatRound (f.1 * 2 ^ s1.toNat) mant11
    else floatRound f.1 (mant11 * 2 ^ (-s1).toNat)
  floorPow2 q.1 q.2

/-- Floor of the tax-exclusive unit price as the source computes it:
`math.floor(item.prd_price / 1.1)` (see `pyFloorDiv11`). The purchase
handler only ever runs on validated requests, so `prd_price ≥ 1`. -/
def exTaxUnit (p : ℤ) : ℤ := (pyFloorDiv11 p.toNat : ℤ)

/-- The spec sentence reads `floor(price / 1.1)` as the exact mathematical
floor of the rational `price / 1.1`; this definition follows the spec's
words, for comparison with the source's `exTaxUnit`. -/
def exTaxUnitSpec (p : ℤ) : ℤ := ⌊(p : ℚ) / (11 / 10 : ℚ)⌋

-- ==================== Pydantic models ====================

/-- Python `class PurchaseItem(BaseModel)`: one submitted line item. Fields are
Python ints / strs; the `Field` constraints are in `PurchaseItem.Valid`. -/
structure PurchaseItem where
  prd_id : ℤ
  prd_code : String
  prd_name : String
  prd_price : ℤ
  quantity : ℤ
deriving Repr, DecidableEq

/-- The `Field` constraints on `PurchaseItem`:
`prd_price: Field(..., gt=0)` and `quantity: Field(..., gt=0, le=9999)`. -/
def PurchaseItem.Valid (it : PurchaseItem) : Prop :=
  0 < it.prd_price ∧ 0 < it.quantity ∧ it.quantity ≤ 9999

instance (it : PurchaseItem) : Decidable it.Valid := by
  unfold PurchaseItem.Valid; infer_instance

/-- Python `class PurchaseRequest(BaseModel)`. `emp_cd` is `Optional[str]` with
default `""`; `none` models an explicit JSON null. -/
structure PurchaseRequest where
  emp_cd : Option String
  store_cd : String
  pos_no : String
  items : List PurchaseItem
deriving Repr, DecidableEq

/-- The `Field` constraints on `PurchaseRequest`:
`emp_cd: max_length=20`, `store_cd: max_length=20`, `pos_no: max_length=20`,
`items: min_items=1`, plus the per-item constraints. -/
def PurchaseRequest.Valid (r : PurchaseRequest) : Prop :=
  (∀ s, r.emp_cd = some s → s.length ≤ 20) ∧
  r.store_cd.length ≤ 20 ∧ r.pos_no.length ≤ 20 ∧
  r.items ≠ [] ∧ ∀ it ∈ r.items, it.Valid

instance (r : PurchaseRequest) : Decidable r.Valid := by
  unfold PurchaseRequest.Valid
  have : (∀ s, r.emp_cd = some s → s.length ≤ 20) ↔
      (∀ s ∈ r.emp_cd, s.length ≤ 20) := Iff.rfl
  rw [this]
  infer_instance

-- ==================== Totals (main.py lines 198-202) ====================

/-- Line 198: `total_amount = sum(item.prd_price * item.quantity for item in request.items)`.
Python `sum` is a left fold starting from `0`. -/
def total_amount (items : List PurchaseItem) : ℤ :=
  items.foldl (fun acc it => acc + it.prd_price * it.quantity) 0

/-- Lines 199-202: `total_amount_ex_tax = sum(math.floor(item.prd_price / 1.1) * item.quantity
for item in request.items)`. -/
def total_amount_ex_tax (items : List PurchaseItem) : ℤ :=
  items.foldl (fun acc it => acc + exTaxUnit it.prd_price * it.quantity) 0

/-- The spec's reading of the tax-exclusive total, with the exact rational
floor in place of the source's double-precision floor. -/
def total_amount_ex_tax_spec (items : List PurchaseItem) : ℤ :=
  items.foldl (fun acc it => acc + exTaxUnitSpec it.prd_price * it.quantity) 0

-- ==================== Rows and database state ====================

/-- A row of `t_txn` as inserted at main.py lines 210-219; `trd_id` is the
store-assigned id (`cursor.lastrowid`), `dt` abstracts `datetime.now()`. -/
structure HeaderRow where
  trd_id : ℕ
  dt : ℕ
  emp_cd : String
  store_cd : String
  pos_no : String
  total_amt : ℤ
  ttl_amt_ex_tax : ℤ
deriving Repr, DecidableEq

/-- A row of `t_txn_dtl` as inserted at main.py lines 225-239. -/
structure DetailRow where
  trd_id : ℕ
  dtl_id : ℕ
  prd_id : ℤ
  prd_code : String
  prd_name : String
  prd_price : ℤ
  tax_cd : String
deriving Repr, DecidableEq

/-- Durable database state: the two tables the purchase handler writes. -/
structure DB where
  headers : List HeaderRow
  details : List DetailRow
deriving Repr, DecidableEq

/-- A single `cursor.execute(INSERT ...)` call. -/
inductive Write where
  | header (h : HeaderRow)
  | detail (d : DetailRow)
deriving Repr, DecidableEq

/-- Apply one write to the durable state. -/
def DB.apply1 (db : DB) : Write → DB
  | .header h => ⟨db.headers ++ [h], db.details⟩
  | .detail d => ⟨db.headers, db.details ++ [d]⟩

/-- Apply a list of writes in order. -/
def DB.applyAll (db : DB) (ws : List Write) : DB := ws.foldl DB.apply1 db

/-- A connection with `autocommit=False`: writes accumulate in `pending`
and only become durable on `commit`; `rollback` discards them. -/
structure Conn where
  committed : DB
  pending : List Write
deriving Repr, DecidableEq

/-- Model of `cursor.execute(INSERT ...)` on an autocommit-off connection. -/
def Conn.exec (c : Conn) (w : Write) : Conn := ⟨c.committed, c.pending ++ [w]⟩

/-- Model of `conn.commit()`: publish the pending writes. -/
def Conn.commit (c : Conn) : Conn := ⟨c.committed.applyAll c.pending, []⟩

/-- Model of `conn.rollback()`: discard the pending writes. -/
def Conn.rollback (c : Conn) : Conn := ⟨c.committed, []⟩

-- ==================== Purchase handler (main.py lines 184-257) ====================

/-- Line 208: `emp_cd = request.emp_cd or "9999999999"` — Python `or`
takes the right operand exactly when the left is falsy, i.e. `None` or
the empty string. -/
def resolve_emp_cd (emp : Option String) : String :=
  match emp with
  | none => "9999999999"
  | some s => if s = "" then "9999999999" else s

/-- The `t_txn` header row inserted at lines 210-219. -/
def purchaseHeader (req : PurchaseRequest) (dt trd : ℕ) : HeaderRow :=
  ⟨trd, dt, resolve_emp_cd req.emp_cd, req.store_cd, req.pos_no,
    total_amount req.items, total_amount_ex_tax req.items⟩

/-- Inner loop `for _ in range(item.quantity)` (lines 233-239): one
detail row per unit, incrementing the counter after each insert. The
rows and the final counter value are returned. -/
def unitRows (trd : ℕ) (it : PurchaseItem) : ℕ → ℕ → List DetailRow × ℕ
  | 0, d => ([], d)
  | n + 1, d =>
      let rest := unitRows trd it n (d + 1)
      (⟨trd, d, it.prd_id, it.prd_code, it.prd_name, it.prd_price, "10"⟩ :: rest.1, rest.2)

/-- Outer loop `for item in request.items` (line 232), threading the
shared `dtl_id` counter across items. -/
def detailLoop (trd : ℕ) : List PurchaseItem → ℕ → List DetailRow × ℕ
  | [], d => ([], d)
  | it :: rest, d =>
      let r1 := unitRows trd it it.quantity.toNat d
      let r2 := detailLoop trd rest r1.2
      (r1.1 ++ r2.1, r2.2)

/-- All detail rows of one purchase; `dtl_id = 1` at line 231. -/
def detailRows (trd : ℕ) (items : List PurchaseItem) : List DetailRow :=
  (detailLoop trd items 1).1

/-- The `cursor.execute(INSERT ...)` calls of one purchase, in program
order: the header first, then the detail rows. -/
def purchaseWrites (req : PurchaseRequest) (dt trd : ℕ) : List Write :=
  .header (purchaseHeader req dt trd) :: (detailRows trd req.items).map Write.detail

/-- Python `class PurchaseResponse(BaseModel)`. -/
structure PurchaseResponse where
  success : Bool
  total_amount : ℤ
  total_amount_ex_tax : ℤ
  transaction_id : Option ℕ
deriving Repr, DecidableEq

/-- Outcome of the purchase endpoint: a response body, or an
`HTTPException(status_code, detail)`. -/
inductive PResult where
  | ok (resp : PurchaseResponse)
  | err (statusCode : ℕ) (detail : String)
deriving Repr, DecidableEq

/-- Run the `cursor.execute` calls; `failAt = some k` makes the k-th
call (0-indexed) raise `pymysql.Error`. A raise returns the connection
as it stood, to feed the `except` branch. -/
def runInserts : Conn → List Write → Option ℕ → Except Conn Conn
  | c, [], _ => .ok c
  | c, _ :: _, some 0 => .error c
  | c, w :: ws, some (k + 1) => runInserts (c.exec w) ws (some k)
  | c, w :: ws, none => runInserts (c.exec w) ws none

/-- The body of `purchase` (lines 195-257) given an open connection on
durable state `db`. `dt` abstracts `datetime.now()` and `trd` the
store-assigned `cursor.lastrowid`. `failAt = some k` injects a
`pymysql.Error` whose message is `cause` at the k-th persistence
operation — the header insert is 0, then one index per detail insert,
then `conn.commit()` last; `failAt = none` or an index past the commit
means no persistence error occurs. The `except pymysql.Error` branch
(lines 251-257) rolls back and re-raises as a 500. -/
def purchaseExec (db : DB) (req : PurchaseRequest) (dt trd : ℕ)
    (failAt : Option ℕ) (cause : String) : PResult × DB :=
  let ws := purchaseWrites req dt trd
  match runInserts ⟨db, []⟩ ws failAt with
  | .error cf =>
      (.err 500 ("購入処理に失敗しました: " ++ cause), cf.rollback.committed)
  | .ok c1 =>
      if failAt = some ws.length then
        (.err 500 ("購入処理に失敗しました: " ++ cause), c1.rollback.committed)
      else
        (.ok ⟨true, total_amount req.items, total_amount_ex_tax req.items, some trd⟩,
          c1.commit.committed)

/-- The purchase endpoint as FastAPI serves it: pydantic validation of
the contract runs first and answers 422 without entering the handler
body, so an invalid request touches no database state. -/
def handlePurchase (req : PurchaseRequest) (db : DB) (dt trd : ℕ)
    (failAt : Option ℕ) (cause : String) : PResult × DB :=
  if req.Valid then purchaseExec db req dt trd failAt cause
  else (.err 422 "Unprocessable Entity", db)

-- ==================== Product lookup (main.py lines 140-181) ====================

/-- The characters Python `str.strip()` removes — exactly the code
points `c` with `str(c).isspace()`: U+0009-U+000D, U+001C-U+0020,
U+0085 (NEL), U+00A0 (no-break space), U+1680 (Ogham space mark),
U+2000-U+200A, U+2028, U+2029, U+202F, U+205F and U+3000 (ideographic
space). -/
def pyIsSpace (c : Char) : Bool :=
  let n := c.toNat
  (decide (0x09 ≤ n) && decide (n ≤ 0x0d)) ||
  (decide (0x1c ≤ n) && decide (n ≤ 0x20)) ||
  (n == 0x85) || (n == 0xa0) || (n == 0x1680) ||
  (decide (0x2000 ≤ n) && decide (n ≤ 0x200a)) ||
  (n == 0x2028) || (n == 0x2029) || (n == 0x202f) ||
  (n == 0x205f) || (n == 0x3000)

/-- Python `str.strip()`: drop leading and trailing whitespace
characters (the full `isspace` set, via `pyIsSpace`). -/
def pyStrip (s : String) : String :=
  ⟨((s.data.dropWhile (fun c => pyIsSpace c)).reverse.dropWhile
      (fun c => pyIsSpace c)).reverse⟩

/-- A row of the `m_product` catalog (columns PRD_ID, CODE, NAME, PRICE). -/
structure CatalogRow where
  prd_id : ℤ
  code : String
  name : String
  price : ℤ
deriving Repr, DecidableEq

/-- Outcome of the lookup endpoint: `ProductSearchResponse` (with
`product=None` for "no match") or an `HTTPException`. -/
inductive SearchResult where
  | ok (product : Option CatalogRow)
  | err (statusCode : ℕ) (detail : String)
deriving Repr, DecidableEq

/-- Endpoint `search_product` (lines 140-181): `product_code` is
`request_body.get("code", "").strip()` (an absent key yields `""`); an
empty code is a 400; otherwise `WHERE CODE = %s LIMIT 1` with
`fetchone()` returns the first matching catalog row or none, and
"no match" is a success with `product=None`. -/
def search_product (body_code : Option String) (catalog : List CatalogRow) :
    SearchResult :=
  let product_code := pyStrip (body_code.getD (""))
  if product_code = "" then .err 400 "商品コードが必要です"
  else .ok (catalog.find? (fun r => r.code == product_code))

-- ==================== Connection provider (main.py lines 73-108) ====================

/-- The `Config` class: connection settings read from the environment,
absent variables defaulting to `""`. -/
structure Config where
  DB_HOST : String
  DB_USER : String
  DB_PASSWORD : String
  DB_NAME : String
  DB_PORT : ℕ
deriving Repr, DecidableEq

/-- Outcome of acquiring a connection. -/
inductive ConnResult where
  | ok
  | err (statusCode : ℕ) (detail : String)
deriving Repr, DecidableEq

/-- Context manager `get_db_connection` (lines 73-108). `connect_ok` is the outcome the
network would give: `false` means `pymysql.connect` raises
`pymysql.Error`. `not all([...])` fires exactly when one of the four
strings is empty (the falsy string) and returns before any connect
attempt — the result then does not depend on `connect_ok`. -/
def get_db_connection (cfg : Config) (connect_ok : Bool) : ConnResult :=
  if cfg.DB_HOST = "" ∨ cfg.DB_USER = "" ∨ cfg.DB_PASSWORD = "" ∨ cfg.DB_NAME = "" then
    .err 503 "データベース設定が不完全です"
  else if connect_ok then .ok
  else .err 503 "データベースに接続できません"

/-- Sum of the submitted quantities, the spec's `Σ qty_i`. -/
def sumQty (items : List PurchaseItem) : ℤ := (items.map (fun it => it.quantity)).sum

/-- Sum of the quantities clamped to ℕ (equal to `sumQty` on valid items). -/
def sumQtyNat (items : List PurchaseItem) : ℕ :=
  (items.map (fun it => it.quantity.toNat)).sum

/-- The spec's worked example: `items = [{price: 108, qty: 2}, {price: 220, qty: 1}]`. -/
def exampleItems : List PurchaseItem :=
  [⟨1, "101", "item A", 108, 2⟩, ⟨2, "102", "item B", 220, 1⟩]

/-- A sample valid purchase item. -/
def sampleItem : PurchaseItem := ⟨1, "4901234567894", "sample", 150, 2⟩

/-- A sample valid purchase request. -/
def sampleReq : PurchaseRequest := ⟨some ("EMP001"), "30", "90", [sampleItem]⟩

/-- A sample valid two-item list (quantities 2 and 3). -/
def sampleItems2 : List PurchaseItem := [sampleItem, ⟨2, "4900000000001", "sampleB", 300, 3⟩]

-- ==================== Helper lemmas ====================

theorem foldl_add_sum {α : Type} (f : α → ℤ) (l : List α) :
    ∀ a : ℤ, l.foldl (fun acc it => acc + f it) a = a + (l.map f).sum := by
  induction l with
  | nil => intro a; simp
  | cons x xs ih => intro a; simp [ih (a + f x), add_assoc]

theorem unitRows_spec (trd : ℕ) (it : PurchaseItem) (n : ℕ) :
    ∀ d, (unitRows trd it n d).1.length = n ∧
      (unitRows trd it n d).2 = d + n ∧
      (unitRows trd it n d).1.map (fun r => r.dtl_id) = List.range' d n ∧
      (unitRows trd it n d).1.map (fun r => r.prd_id) = List.replicate n it.prd_id := by
  induction n with
  | zero => intro d; simp [unitRows]
  | succ n ih =>
      intro d
      obtain ⟨h1, h2, h3, h4⟩ := ih (d + 1)
      refine ⟨by simp [unitRows, h1], by simp [unitRows, h2]; omega,
        by simp [unitRows, h3, List.range'_succ],
        by simp [unitRows, h4, List.replicate_succ]⟩

theorem detailLoop_spec (trd : ℕ) (items : List PurchaseItem) :
    ∀ d, (detailLoop trd items d).1.length = sumQtyNat items ∧
      (detailLoop trd items d).2 = d + sumQtyNat items ∧
      (detailLoop trd items d).1.map (fun r => r.dtl_id)
        = List.range' d (sumQtyNat items) ∧
      (detailLoop trd items d).1.map (fun r => r.prd_id)
        = items.flatMap (fun it => List.replicate it.quantity.toNat it.prd_id) := by
  induction items with
  | nil => intro d; simp [detailLoop, sumQtyNat]
  | cons it rest ih =>
      intro d
      obtain ⟨u1, u2, u3, u4⟩ := unitRows_spec trd it it.quantity.toNat d
      obtain ⟨h1, h2, h3, h4⟩ := ih (d + it.quantity.toNat)
      have hsum : sumQtyNat (it :: rest) = it.quantity.toNat + sumQtyNat rest := by
        simp [sumQtyNat]
      refine ⟨?_, ?_, ?_, ?_⟩
      · simp [detailLoop, u1, u2, h1, hsum]
      · simp [detailLoop, u2, h2, hsum]; omega
      · simp only [detailLoop, List.map_append, u3, u2, h3, hsum]
        have hap := List.range'_append_1 d it.quantity.toNat (sumQtyNat rest)
        rwa [Nat.add_comm (sumQtyNat rest)] at hap
      · simp [detailLoop, List.map_append, u4, u2, h4]

theorem sumQtyNat_cast (items : List PurchaseItem)
    (hv : ∀ it ∈ items, 0 ≤ it.quantity) :
    (sumQtyNat items : ℤ) = sumQty items := by
  induction items with
  | nil => simp [sumQtyNat, sumQty]
  | cons it rest ih =>
      have h0 : (it.quantity.toNat : ℤ) = it.quantity :=
        Int.toNat_of_nonneg (hv it (by simp))
      have hr := ih (fun x hx => hv x (by simp [hx]))
      simp [sumQtyNat, sumQty] at hr ⊢
      omega

theorem applyAll_details (ds : List DetailRow) :
    ∀ db : DB, db.applyAll (ds.map Write.detail)
      = ⟨db.headers, db.details ++ ds⟩ := by
  induction ds with
  | nil => intro db; simp [DB.applyAll]
  | cons d ds ih => intro db; simp [DB.applyAll, DB.apply1] at ih ⊢; simp [ih]

theorem applyAll_purchaseWrites (db : DB) (req : PurchaseRequest) (dt trd : ℕ) :
    db.applyAll (purchaseWrites req dt trd)
      = ⟨db.headers ++ [purchaseHeader req dt trd],
          db.details ++ detailRows trd req.items⟩ := by
  have h := applyAll_details (detailRows trd req.items)
      ⟨db.headers ++ [purchaseHeader req dt trd], db.details⟩
  simp [purchaseWrites, DB.applyAll, DB.apply1] at h ⊢
  exact h

theorem runInserts_none (ws : List Write) :
    ∀ c : Conn, runInserts c ws none = .ok ⟨c.committed, c.pending ++ ws⟩ := by
  induction ws with
  | nil => intro c; simp [runInserts]
  | cons w ws ih => intro c; simp [runInserts, Conn.exec, ih]

theorem runInserts_some_length (ws : List Write) :
    ∀ c : Conn, runInserts c ws (some ws.length) = .ok ⟨c.committed, c.pending ++ ws⟩ := by
  induction ws with
  | nil => intro c; simp [runInserts]
  | cons w ws ih => intro c; simp [runInserts, Conn.exec, ih]

theorem runInserts_error (ws : List Write) :
    ∀ k, k < ws.length →
      ∀ c : Conn, ∃ cf, runInserts c ws (some k) = .error cf ∧
        cf.committed = c.committed := by
  induction ws with
  | nil => intro k hk; simp at hk
  | cons w ws ih =>
      intro k hk c
      cases k with
      | zero => exact ⟨c, rfl, rfl⟩
      | succ k =>
          obtain ⟨cf, h1, h2⟩ := ih k (by simpa using hk) (c.exec w)
          exact ⟨cf, h1, by simpa [Conn.exec] using h2⟩

-- ==================== Claim theorems ====================

/-- C1 (amended): for every purchase request, `total_amount_ex_tax` is
the sum over items of the per-unit tax-exclusive price times quantity,
where the per-unit price is `math.floor` applied to the IEEE-754
double-precision quotient `price / 1.1` (`exTaxUnit`) — each unit price
floored independently before the multiplication by quantity, never
after summing. -/
theorem purchase_ex_tax_per_unit_double_floor (items : List PurchaseItem) :
    total_amount_ex_tax items
      = (items.map (fun it => exTaxUnit it.prd_price * it.quantity)).sum := by
  simpa using foldl_add_sum (fun it => exTaxUnit it.prd_price * it.quantity) items 0

/-- C1 (counterexample): at the single valid item {price: 220, qty: 1}
the code computes 199 — the floor of the double quotient `220 / 1.1 =
199.99999999999997` — while the exact mathematical floor of the rational
220 / 1.1 is 200, so the claim as stated fails there. -/
theorem purchase_ex_tax_not_exact_rational_floor :
    total_amount_ex_tax [⟨2, "102", "item B", 220, 1⟩] = 199 ∧
    total_amount_ex_tax_spec [⟨2, "102", "item B", 220, 1⟩] = 200 ∧
    total_amount_ex_tax [⟨2, "102", "item B", 220, 1⟩]
      ≠ total_amount_ex_tax_spec [⟨2, "102", "item B", 220, 1⟩] := by
  have h1 : total_amount_ex_tax [⟨2, "102", "item B", 220, 1⟩] = 199 := by decide
  have hq : exTaxUnitSpec 220 = 200 := by
    unfold exTaxUnitSpec
    rw [show ((220 : ℤ) : ℚ) / (11 / 10 : ℚ) = ((200 : ℤ) : ℚ) by norm_num,
      Int.floor_intCast]
  have h2 : total_amount_ex_tax_spec [⟨2, "102", "item B", 220, 1⟩] = 200 := by
    show (0 : ℤ) + exTaxUnitSpec 220 * 1 = 200
    rw [hq]
    ring
  exact ⟨h1, h2, by rw [h1, h2]; decide⟩

/-- C2 (amended): on the spec's worked example
items = [{price: 108, qty: 2}, {price: 220, qty: 1}] the code yields
total_amount = 436 and total_amount_ex_tax = 395 (in double arithmetic
math.floor(108 / 1.1) = 98 and math.floor(220 / 1.1) = 199, so
98·2 + 199·1 = 395), with exactly 3 detail rows carrying dtl_id 1, 2, 3. -/
theorem purchase_example_computation (trd : ℕ) :
    total_amount exampleItems = 436 ∧
    total_amount_ex_tax exampleItems = 395 ∧
    (detailRows trd exampleItems).length = 3 ∧
    (detailRows trd exampleItems).map (fun r => r.dtl_id) = [1, 2, 3] := by
  obtain ⟨h1, _, h3, _⟩ := detailLoop_spec trd exampleItems 1
  refine ⟨by decide, by decide, ?_, ?_⟩
  · rw [detailRows, h1]; decide
  · rw [detailRows, h3]; decide

/-- C2 (counterexample): the claimed value 396 for total_amount_ex_tax is
not what the code computes on the example items — it computes 395. -/
theorem purchase_example_not_396 :
    total_amount_ex_tax exampleItems ≠ 396 := by decide

/-- C3: for every purchase over validated items, the detail rows number
exactly Σ qty_i, their dtl_id values are the contiguous run 1..Σ qty_i
with no gaps or repeats, and the rows follow the submission order of
the items — one block of quantity-many rows per item under a single
counter shared across items. -/
theorem purchase_detail_rows_invariant (trd : ℕ) (items : List PurchaseItem)
    (hv : ∀ it ∈ items, it.Valid) :
    ((detailRows trd items).length : ℤ) = sumQty items ∧
    (detailRows trd items).map (fun r => r.dtl_id)
      = List.range' 1 (sumQtyNat items) ∧
    ((sumQtyNat items : ℤ) = sumQty items) ∧
    (detailRows trd items).map (fun r => r.prd_id)
      = items.flatMap (fun it => List.replicate it.quantity.toNat it.prd_id) := by
  obtain ⟨h1, _, h3, h4⟩ := detailLoop_spec trd items 1
  have hc := sumQtyNat_cast items (fun it hit => le_of_lt (hv it hit).2.1)
  exact ⟨by rw [detailRows, h1, hc], by rw [detailRows]; exact h3, hc,
    by rw [detailRows]; exact h4⟩

/-- C3 (witness): the invariant at a concrete valid two-item request
(quantities 2 and 3, so five rows with dtl_id 1..5). -/
theorem purchase_detail_rows_invariant_witness :
    (∀ it ∈ sampleItems2, PurchaseItem.Valid it) ∧
    (((detailRows 5 sampleItems2).length : ℤ) = sumQty sampleItems2 ∧
      (detailRows 5 sampleItems2).map (fun r => r.dtl_id)
        = List.range' 1 (sumQtyNat sampleItems2) ∧
      ((sumQtyNat sampleItems2 : ℤ) = sumQty sampleItems2) ∧
      (detailRows 5 sampleItems2).map (fun r => r.prd_id)
        = sampleItems2.flatMap (fun it => List.replicate it.quantity.toNat it.prd_id)) :=
  ⟨by decide, purchase_detail_rows_invariant 5 sampleItems2 (by decide)⟩

/-- C4: if any persistence operation of the purchase — the header
insert, any detail insert, or the commit — raises `pymysql.Error`, the
handler rolls back, the durable state is exactly what it was before (no
header row and no detail row persists), and the endpoint fails with a
500 whose message carries the underlying cause. -/
theorem purchase_rollback_on_error (db : DB) (req : PurchaseRequest)
    (dt trd k : ℕ) (cause : String)
    (hk : k < (purchaseWrites req dt trd).length + 1) :
    purchaseExec db req dt trd (some k) cause
      = (.err 500 ("購入処理に失敗しました: " ++ cause), db) := by
  rcases Nat.lt_or_ge k (purchaseWrites req dt trd).length with hlt | hge
  · obtain ⟨cf, h1, h2⟩ := runInserts_error (purchaseWrites req dt trd) k hlt ⟨db, []⟩
    simp [purchaseExec, h1, Conn.rollback, h2]
  · have hk' : k = (purchaseWrites req dt trd).length := by omega
    subst hk'
    have h1 := runInserts_some_length (purchaseWrites req dt trd) ⟨db, []⟩
    simp [purchaseExec, h1, Conn.rollback]

/-- C4 (witness): a failure at the very first persistence operation of a
concrete purchase leaves the empty database empty and produces the 500
carrying the cause. -/
theorem purchase_rollback_on_error_witness :
    0 < (purchaseWrites sampleReq 0 1).length + 1 ∧
    purchaseExec ⟨[], []⟩ sampleReq 0 1 (some 0) "Duplicate entry"
      = (.err 500 ("購入処理に失敗しました: " ++ "Duplicate entry"), ⟨[], []⟩) :=
  ⟨Nat.succ_pos _,
    purchase_rollback_on_error ⟨[], []⟩ sampleReq 0 1 0 "Duplicate entry" (Nat.succ_pos _)⟩

/-- C5: total_amount is the sum over items of prd_price · quantity, in
exact integer arithmetic on the tax-inclusive prices. -/
theorem total_amount_is_sum (items : List PurchaseItem) :
    total_amount items
      = (items.map (fun it => it.prd_price * it.quantity)).sum := by
  simpa using foldl_add_sum (fun it => it.prd_price * it.quantity) items 0

/-- C6: a code that is empty after stripping whitespace is answered with
a 400, and a non-empty code matching no catalog row is a success with an
empty product — never an error. -/
theorem search_product_empty_and_missing (code : Option String)
    (catalog : List CatalogRow) :
    (pyStrip (code.getD ("")) = "" →
      search_product code catalog = .err 400 "商品コードが必要です") ∧
    (pyStrip (code.getD ("")) ≠ "" →
      (∀ r ∈ catalog, r.code ≠ pyStrip (code.getD (""))) →
      search_product code catalog = .ok none) := by
  constructor
  · intro h
    simp [search_product, h]
  · intro h hnone
    have hfind : catalog.find? (fun r => r.code == pyStrip (code.getD (""))) = none := by
      rw [List.find?_eq_none]
      intro r hr
      simpa using hnone r hr
    simp [search_product, h, hfind]

/-- C6 (witness): a whitespace-only code — an ideographic space, a
no-break space and an ASCII space — is a 400; the code "B2" (after
stripping) against a catalog without it is a success with no product. -/
theorem search_product_empty_and_missing_witness :
    (pyStrip ((some ("\u3000\u00a0 ")).getD ("")) = "" ∧
      search_product (some ("\u3000\u00a0 ")) [⟨1, "A1", "x", 100⟩]
        = .err 400 "商品コードが必要です") ∧
    (pyStrip ((some (" B2 ")).getD ("")) ≠ "" ∧
      (∀ r ∈ [(⟨1, "A1", "x", 100⟩ : CatalogRow)],
        r.code ≠ pyStrip ((some (" B2 ")).getD (""))) ∧
      search_product (some (" B2 ")) [⟨1, "A1", "x", 100⟩] = .ok none) :=
  ⟨⟨by decide, (search_product_empty_and_missing (some ("\u3000\u00a0 ")) _).1 (by decide)⟩,
    ⟨by decide, by decide,
      (search_product_empty_and_missing (some (" B2 ")) _).2 (by decide) (by decide)⟩⟩

/-- C7: a successful purchase appends exactly one header row, whose
emp_cd is the sentinel "9999999999" when the request's emp_cd is absent
(null) or the empty string, and is the given string verbatim when it is
non-empty. -/
theorem purchase_emp_cd_sentinel (db : DB) (req : PurchaseRequest)
    (dt trd : ℕ) (cause : String) :
    ((purchaseExec db req dt trd none cause).2.headers
        = db.headers ++ [purchaseHeader req dt trd]) ∧
    ((req.emp_cd = none ∨ req.emp_cd = some "") →
      (purchaseHeader req dt trd).emp_cd = "9999999999") ∧
    (∀ s, req.emp_cd = some s → s ≠ "" →
      (purchaseHeader req dt trd).emp_cd = s) := by
  refine ⟨?_, ?_, ?_⟩
  · have h1 := runInserts_none (purchaseWrites req dt trd) ⟨db, []⟩
    have h2 := applyAll_purchaseWrites db req dt trd
    simp [purchaseExec, h1, Conn.commit, h2]
  · rintro (h | h) <;> simp [purchaseHeader, resolve_emp_cd, h]
  · intro s hs hne
    simp [purchaseHeader, resolve_emp_cd, hs, hne]

/-- C7 (witness): an empty emp_cd is stored as the sentinel. -/
theorem purchase_emp_cd_sentinel_witness :
    (purchaseHeader ⟨some "", "30", "90", [sampleItem]⟩ 0 1).emp_cd = "9999999999" :=
  (purchase_emp_cd_sentinel ⟨[], []⟩ ⟨some "", "30", "90", [sampleItem]⟩ 0 1 "").2.1
    (Or.inr rfl)

/-- C8: an incomplete configuration (any of host, user, password,
database name empty) is answered 503 "configuration incomplete"
whatever the network would do — the connect outcome cannot influence the
result — while a complete configuration whose connect attempt fails is
answered 503 "database unreachable", a distinct condition. -/
theorem get_db_connection_failure_modes (cfg : Config) :
    ((cfg.DB_HOST = "" ∨ cfg.DB_USER = "" ∨ cfg.DB_PASSWORD = "" ∨ cfg.DB_NAME = "") →
      ∀ connect_ok, get_db_connection cfg connect_ok
        = .err 503 "データベース設定が不完全です") ∧
    ((cfg.DB_HOST ≠ "" ∧ cfg.DB_USER ≠ "" ∧ cfg.DB_PASSWORD ≠ "" ∧ cfg.DB_NAME ≠ "") →
      get_db_connection cfg false = .err 503 "データベースに接続できません") ∧
    ConnResult.err 503 "データベース設定が不完全です"
      ≠ ConnResult.err 503 "データベースに接続できません" := by
  refine ⟨?_, ?_, by decide⟩
  · intro h connect_ok
    simp [get_db_connection, h]
  · rintro ⟨h1, h2, h3, h4⟩
    simp [get_db_connection, h1, h2, h3, h4]

/-- C8 (witness): a missing host is "configuration incomplete" even when
the network would connect; a complete configuration with a failing
connect is "database unreachable". -/
theorem get_db_connection_failure_modes_witness :
    get_db_connection ⟨"", "user", "pw", "db", 3306⟩ true
      = .err 503 "データベース設定が不完全です" ∧
    get_db_connection ⟨"host", "user", "pw", "db", 3306⟩ false
      = .err 503 "データベースに接続できません" :=
  ⟨(get_db_connection_failure_modes ⟨"", "user", "pw", "db", 3306⟩).1 (Or.inl rfl) true,
    (get_db_connection_failure_modes ⟨"host", "user", "pw", "db", 3306⟩).2.1
      (by exact ⟨by decide, by decide, by decide, by decide⟩)⟩

/-- C9: the request contract is enforced before the handler body runs —
a violating request is answered 422 with the database untouched — and
the contract is exactly: strictly positive prd_price on every item,
quantity in [1, 9999], non-empty items, and the 20-character caps on
emp_cd, store_cd and pos_no. -/
theorem purchase_validation_before_side_effects (req : PurchaseRequest)
    (db : DB) (dt trd : ℕ) (failAt : Option ℕ) (cause : String)
    (hbad : ¬ req.Valid) :
    handlePurchase req db dt trd failAt cause
      = (.err 422 "Unprocessable Entity", db) ∧
    (req.Valid ↔
      ((∀ s, req.emp_cd = some s → s.length ≤ 20) ∧
        req.store_cd.length ≤ 20 ∧ req.pos_no.length ≤ 20 ∧
        req.items ≠ [] ∧
        ∀ it ∈ req.items, 0 < it.prd_price ∧ 0 < it.quantity ∧ it.quantity ≤ 9999)) :=
  ⟨by simp [handlePurchase, hbad], Iff.rfl⟩

/-- C9 (witness): the empty item list violates the contract, and the
endpoint answers 422 leaving the database unchanged. -/
theorem purchase_validation_before_side_effects_witness :
    ¬ PurchaseRequest.Valid ⟨some "", "30", "90", []⟩ ∧
    handlePurchase ⟨some "", "30", "90", []⟩ ⟨[], []⟩ 0 1 none "x"
      = (.err 422 "Unprocessable Entity", ⟨[], []⟩) :=
  ⟨by decide,
    (purchase_validation_before_side_effects ⟨some "", "30", "90", []⟩ ⟨[], []⟩ 0 1
      none "x" (by decide)).1⟩

/-- C10: a whitespace-only emp_cd such as " " is truthy in Python, so the
sentinel substitution does not apply — the successful purchase stores
the whitespace string in the header verbatim, and it differs from the
sentinel "9999999999". -/
theorem purchase_emp_cd_whitespace_verbatim (db : DB) (req : PurchaseRequest)
    (dt trd : ℕ) (cause : String) (s : String)
    (hs : req.emp_cd = some s) (hne : s ≠ "")
    (hws : ∀ c ∈ s.data, pyIsSpace c) :
    ((purchaseExec db req dt trd none cause).2.headers
        = db.headers ++ [purchaseHeader req dt trd]) ∧
    (purchaseHeader req dt trd).emp_cd = s ∧ s ≠ "9999999999" := by
  refine ⟨?_, ?_, ?_⟩
  · have h1 := runInserts_none (purchaseWrites req dt trd) ⟨db, []⟩
    have h2 := applyAll_purchaseWrites db req dt trd
    simp [purchaseExec, h1, Conn.commit, h2]
  · simp [purchaseHeader, resolve_emp_cd, hs, hne]
  · intro hsent
    subst hsent
    have h9 := hws ('9') (by decide)
    exact absurd h9 (by decide)

/-- C10 (witness): the single-space emp_cd " " is stored verbatim, not as
the sentinel. -/
theorem purchase_emp_cd_whitespace_verbatim_witness :
    (purchaseHeader ⟨some (" "), "30", "90", [sampleItem]⟩ 2 3).emp_cd = " " ∧
    (" " : String) ≠ "9999999999" :=
  (purchase_emp_cd_whitespace_verbatim ⟨[], []⟩ ⟨some (" "), "30", "90", [sampleItem]⟩
    2 3 "c" " " rfl (by decide) (by decide)).2

end POS
